import Mathlib

/-!
Verification of the transaction lifecycle manager and session multiplexer of
mcp-postgres-full-access (src/src/index.ts), as a shallow embedding.

The transaction registry (TransactionManager), the commit handler
(handleExecuteCommit), the write-begin handler (handleExecuteDML) and the
background monitor live in src/lib/, which is not part of the sources given;
those are modelled from the spec (sections 4.1, 4.2, 4.4) and marked as such.
The tool handlers for rollback and the write-admission gate, and the HTTP
session multiplexer, are embedded directly from src/src/index.ts.

Mutable server state is passed explicitly.  Every externally visible effect
(SQL statement issued on a client, client released to the pool, client
acquired from the pool, released flag set, registry entry removed) is logged
in an event trace so that ordering and exactly-once claims can be stated.
-/

namespace McpPg

/-- Observable events of the transaction core, in program order. -/
inductive Ev where
  | acq (client : Nat)                  -- a client is acquired from the pool
  | q (client : Nat) (stmt : String)    -- a SQL statement is issued on a client
  | setRel (id : String)                -- the released flag of a transaction object is set
  | rel (client : Nat)                  -- a client is released back to the pool
  | rm (id : String)                    -- removeTransaction is called for an id
deriving Repr, DecidableEq

/-- A tracked transaction: id, bound pooled client, released flag, creation time.
Mirrors the Transaction record of the data model (spec section 3): identifier,
exclusively owned connection, creation timestamp, released flag. -/
structure Tx where
  txId : String
  client : Nat
  released : Bool
  createdAt : Nat
deriving Repr, DecidableEq

/-- Whole server-side transaction state: the registry map plus the event trace. -/
structure SState where
  registry : List Tx
  trace : List Ev
deriving Repr, DecidableEq

/-- Result of a tool call: the code returns either a success payload or an
object with isError: true; both carry a text. -/
inductive ToolResult where
  | ok (text : String)
  | error (text : String)
deriving Repr, DecidableEq

/-- Modelled from the spec: `TransactionManager.getTransaction` (src/lib/
transaction-manager.js is not under src/); spec section 4.1 `get(id)`,
an in-memory map lookup. -/
def getTransaction (s : SState) (id : String) : Option Tx :=
  s.registry.find? (fun t => t.txId = id)

/-- Modelled from the spec: `TransactionManager.hasTransaction`; spec
section 4.1 `has(id)`. -/
def hasTransaction (s : SState) (id : String) : Bool :=
  (getTransaction s id).isSome

/-- Modelled from the spec: `TransactionManager.removeTransaction`; spec
section 4.1 `remove(id)`, idempotent, removing an absent id is a no-op.
The call is logged as an `rm` event. -/
def removeTransaction (s : SState) (id : String) : SState :=
  { registry := s.registry.filter (fun t => t.txId ≠ id),
    trace := s.trace ++ [.rm id] }

/-- Modelled from the spec: `TransactionManager.transactionCount`; spec
section 4.1 `count()`, the number of currently tracked transactions. -/
def transactionCount (s : SState) : Nat :=
  s.registry.length

/-- The assignment `tx.released = true` on the transaction object: updates the
registry entry when present (when the entry was already removed the object is
no longer reachable from the registry and the registry is unchanged).  The
assignment is logged as a `setRel` event. -/
def setReleased (s : SState) (id : String) : SState :=
  { registry := s.registry.map (fun t => if t.txId = id then { t with released := true } else t),
    trace := s.trace ++ [.setRel id] }

/-- Issue a SQL statement on a client (`await tx.client.query(stmt)`): logged
as a `q` event. -/
def issueQuery (s : SState) (client : Nat) (stmt : String) : SState :=
  { s with trace := s.trace ++ [.q client stmt] }

/-- The call `safelyReleaseClient(tx.client)`: release the client back to the pool,
logged as a `rel` event.  (src/lib/utils.js is not under src/; the spec,
sections 4.2 and 6, describes it as the pool release.) -/
def releaseClient (s : SState) (client : Nat) : SState :=
  { s with trace := s.trace ++ [.rel client] }

/-- Number of times client `c` was released to the pool in trace `tr`. -/
def relCount (tr : List Ev) (c : Nat) : Nat :=
  tr.count (.rel c)

/-- Number of times client `c` was acquired from the pool in trace `tr`. -/
def acqCount (tr : List Ev) (c : Nat) : Nat :=
  tr.count (.acq c)

/-- Number of times statement `stmt` was issued on client `c` in trace `tr`. -/
def stmtCount (tr : List Ev) (c : Nat) (stmt : String) : Nat :=
  tr.count (.q c stmt)

/-- The execute_rollback handler up to its only suspension point, the
`await tx.client.query("ROLLBACK")` of src/src/index.ts line 109.  This prefix
runs atomically on the event loop.  Either the handler returns early
(NotFound at line 102, AlreadyReleased at line 107), or the ROLLBACK statement
has been sent and the handler is suspended awaiting its completion. -/
inductive RbPhase where
  | early (r : ToolResult)
  | awaiting (id : String) (client : Nat)
deriving Repr, DecidableEq

/-- First atomic segment of execute_rollback (src/src/index.ts lines 101-109):
check hasTransaction, read the entry; if released, remove and fail
AlreadyReleased; otherwise send ROLLBACK and suspend. -/
def rollbackSeg1 (s : SState) (id : String) : SState × RbPhase :=
  match getTransaction s id with
  | none => (s, .early (.error ("Transaction not found: " ++ id)))
  | some tx =>
    if tx.released then
      (removeTransaction s id, .early (.error ("Already released: " ++ id)))
    else
      (issueQuery s tx.client "ROLLBACK", .awaiting id tx.client)

/-- Second atomic segment of execute_rollback (src/src/index.ts lines
110-115), run when the awaited ROLLBACK resolved without error:
`tx.released = true; safelyReleaseClient(tx.client);
transactionManager.removeTransaction(id);` then return the confirmation. -/
def rollbackSeg2 (s : SState) (id : String) (client : Nat) : SState × ToolResult :=
  let s1 := setReleased s id
  let s2 := releaseClient s1 client
  let s3 := removeTransaction s2 id
  (s3, .ok ("Rolled back: " ++ id ++ ". No changes applied."))

/-- The execute_rollback tool handler (src/src/index.ts lines 99-119) run to
completion with no interleaving.  `qerr = some m` means the awaited
`tx.client.query("ROLLBACK")` rejected with message `m`, which the catch of
line 116 turns into an error result; `qerr = none` means it resolved. -/
def executeRollback (s : SState) (id : String) (qerr : Option String) : SState × ToolResult :=
  match rollbackSeg1 s id with
  | (s1, .early r) => (s1, r)
  | (s1, .awaiting i c) =>
    match qerr with
    | some m => (s1, .error m)
    | none => rollbackSeg2 s1 i c

/-- Modelled from the spec: `handleExecuteCommit` (src/lib/tool-handlers.js is
not under src/); spec section 4.2, finalize(id, commit): absent id fails
NotFound; released entry fails AlreadyReleased and is removed as cleanup;
otherwise set released, issue COMMIT, release the client, remove the entry,
and return a confirmation naming the mode and the id. -/
def executeCommit (s : SState) (id : String) : SState × ToolResult :=
  match getTransaction s id with
  | none => (s, .error ("Transaction not found: " ++ id))
  | some tx =>
    if tx.released then
      (removeTransaction s id, .error ("Already released: " ++ id))
    else
      let s1 := setReleased s id
      let s2 := issueQuery s1 tx.client "COMMIT"
      let s3 := releaseClient s2 tx.client
      (removeTransaction s3 id, .ok ("Committed: " ++ id))

/-- Modelled from the spec: `handleExecuteDML` (src/lib/tool-handlers.js is
not under src/); spec sections 4.1 and 6, begin_write: acquire a client from
the pool, begin the transaction, register it with released = false, return
its id.  `newId` and `newClient` stand for the freshly allocated identifier
and the client yielded by the pool; `now` is the creation timestamp. -/
def handleExecuteDML (s : SState) (newId : String) (newClient : Nat) (now : Nat) : SState × ToolResult :=
  let s1 : SState := { s with trace := s.trace ++ [Ev.acq newClient] }
  let s2 : SState := { s1 with registry := s1.registry ++ [Tx.mk newId newClient false now] }
  (s2, .ok ("Transaction started: " ++ newId))

/-- The execute_dml_ddl_dcl_tcl tool handler (src/src/index.ts lines 77-89):
if transactionCount is at or above maxConcurrentTransactions, return the
limit error without touching anything; otherwise run handleExecuteDML. -/
def executeDmlDdlDclTcl (s : SState) (maxConcurrentTransactions : Nat)
    (newId : String) (newClient : Nat) (now : Nat) : SState × ToolResult :=
  if transactionCount s ≥ maxConcurrentTransactions then
    (s, .error ("Limit reached (" ++ toString maxConcurrentTransactions ++ "). Try later."))
  else
    handleExecuteDML s newId newClient now

/-- Modelled from the spec: the Transaction Monitor force-expiry of one entry
(src/lib/transaction-manager.js is not under src/); spec section 4.4: for an
entry whose age `now - createdAt` exceeds the timeout, perform the
finalize-as-rollback sequence of section 4.2 with the atomic check-and-set on
released: if the entry is present with released = false, set released, issue
ROLLBACK, release the client, remove the entry — as one atomic action. -/
def monitorExpire (s : SState) (id : String) (now timeout : Nat) : SState :=
  match getTransaction s id with
  | none => s
  | some tx =>
    if now - tx.createdAt > timeout ∧ tx.released = false then
      let s1 := setReleased s id
      let s2 := issueQuery s1 tx.client "ROLLBACK"
      let s3 := releaseClient s2 tx.client
      removeTransaction s3 id
    else s

/-! ## Session multiplexer (src/src/index.ts lines 167-243) -/

/-- The session map `transports`: session id to the identity of the
transport/handler pairing bound to it (src/src/index.ts line 167). -/
structure MuxState where
  sessions : List (String × Nat)
deriving Repr, DecidableEq

/-- Lookup in the session map, first binding wins (a JS object holds at most
one value per key; the association list mirrors it, with freshness of
generated ids keeping keys unique). -/
def lookupSession : List (String × Nat) → String → Option Nat
  | [], _ => none
  | (k, v) :: rest, sid => if k = sid then some v else lookupSession rest sid

/-- Outcome of an HTTP request to /mcp. -/
inductive HttpResult where
  | handled (pairing : Nat) (headerSessionId : Option String)
  | badRequest
deriving Repr, DecidableEq

/-- The app.post("/mcp") handler (src/src/index.ts lines 172-229).
`sessionId` is the mcp-session-id header, `isInit` the manual initialize
check of line 182.  `freshId` stands for the randomUUID() of line 192 and
`freshPairing` for the new transport/server pairing built in lines 195-212;
its registration in `transports` happens in the onsessioninitialized
callback (line 199), which the SDK transport invokes while handling the
initialization request — that callback behaviour is external, modelled from
the spec (section 4.5: register mapping id to pairing).  The response header
carries the fresh id (line 193). -/
def postMcp (st : MuxState) (sessionId : Option String) (isInit : Bool)
    (freshId : String) (freshPairing : Nat) : MuxState × HttpResult :=
  match sessionId with
  | some sid =>
    match lookupSession st.sessions sid with
    | some pairing => (st, .handled pairing none)
    | none => (st, .badRequest)
  | none =>
    if isInit then
      ({ sessions := st.sessions ++ [(freshId, freshPairing)] },
        .handled freshPairing (some freshId))
    else
      (st, .badRequest)

/-- handleSessionRequest for GET and DELETE /mcp (src/src/index.ts lines
231-240): missing or unknown session id is rejected with 400; otherwise the
request is routed into the existing pairing and no state changes. -/
def handleSessionRequest (st : MuxState) (sessionId : Option String) : MuxState × HttpResult :=
  match sessionId with
  | none => (st, .badRequest)
  | some sid =>
    match lookupSession st.sessions sid with
    | none => (st, .badRequest)
    | some pairing => (st, .handled pairing none)

/-- transport.onclose (src/src/index.ts lines 203-208): when the transport
carries a session id, delete that id from the session map; otherwise do
nothing. -/
def oncloseTransport (st : MuxState) (transportSessionId : Option String) : MuxState :=
  match transportSessionId with
  | none => st
  | some sid => { sessions := st.sessions.filter (fun p => p.1 ≠ sid) }

/-- Number of live pairings bound to a session id. -/
def livePairings (st : MuxState) (sid : String) : Nat :=
  (st.sessions.filter (fun p => p.1 = sid)).length

/-- The session-map invariant of spec section 4.5: at most one live pairing
per session id. -/
def MuxInv (st : MuxState) : Prop :=
  ∀ sid : String, livePairings st sid ≤ 1

/-! ## Concrete states used by witnesses and counterexamples -/

/-- A state holding one live (unreleased) transaction t1 on client 0. -/
def sOne : SState := { registry := [⟨"t1", 0, false, 0⟩], trace := [] }

/-- A state holding one already-released transaction t1 on client 0. -/
def sRel : SState := { registry := [⟨"t1", 0, true, 0⟩], trace := [] }

/-! ## Theorems -/

/-- C1: a begin_write request arriving when the tracked-transaction count is
at or above maxConcurrentTransactions fails with the capacity error, the
state (hence the pool-acquire trace and the transaction count) is unchanged,
and handleExecuteDML — the only path that acquires from the pool — is never
reached. -/
theorem admission_gate_rejects (s : SState) (m : Nat) (id : String) (c now : Nat)
    (h : transactionCount s ≥ m) :
    executeDmlDdlDclTcl s m id c now =
      (s, .error ("Limit reached (" ++ toString m ++ "). Try later.")) ∧
    (executeDmlDdlDclTcl s m id c now).1.trace = s.trace ∧
    transactionCount (executeDmlDdlDclTcl s m id c now).1 = transactionCount s := by
  simp [executeDmlDdlDclTcl, h]

/-- Witness for C1: with one tracked transaction and a ceiling of 1, a new
begin_write is rejected and nothing changes. -/
theorem admission_gate_rejects_witness :
    executeDmlDdlDclTcl sOne 1 "t2" 1 5 =
      (sOne, .error ("Limit reached (" ++ toString 1 ++ "). Try later.")) ∧
    (executeDmlDdlDclTcl sOne 1 "t2" 1 5).1.trace = sOne.trace ∧
    transactionCount (executeDmlDdlDclTcl sOne 1 "t2" 1 5).1 = transactionCount sOne :=
  admission_gate_rejects sOne 1 "t2" 1 5 (by decide)

/-- C2 counterexample: on a state with one live transaction, the rollback
handler issues the terminal ROLLBACK statement BEFORE setting the released
flag, so the event order claimed by the spec (released set first, then
ROLLBACK, then release, then removal) does not hold. -/
theorem rollback_order_counterexample :
    (executeRollback sOne "t1" none).1.trace =
      [Ev.q 0 "ROLLBACK", Ev.setRel "t1", Ev.rel 0, Ev.rm "t1"] ∧
    (executeRollback sOne "t1" none).1.trace ≠
      [Ev.setRel "t1", Ev.q 0 "ROLLBACK", Ev.rel 0, Ev.rm "t1"] := by
  decide

/-- C2 (amended): for a transaction present and not yet released, rollback
proceeds as: issue ROLLBACK on the bound client, then set released = true,
then release the client to the pool, then remove the registry entry, in that
order, and the call returns the confirmation naming the identifier. -/
theorem rollback_success_sequence (s : SState) (id : String) (tx : Tx)
    (h : getTransaction s id = some tx) (h2 : tx.released = false) :
    executeRollback s id none =
      (removeTransaction (releaseClient (setReleased (issueQuery s tx.client "ROLLBACK") id) tx.client) id,
        .ok ("Rolled back: " ++ id ++ ". No changes applied.")) ∧
    (executeRollback s id none).1.trace =
      s.trace ++ [Ev.q tx.client "ROLLBACK", Ev.setRel id, Ev.rel tx.client, Ev.rm id] := by
  constructor
  · simp [executeRollback, rollbackSeg1, h, h2, rollbackSeg2]
  · simp [executeRollback, rollbackSeg1, h, h2, rollbackSeg2, removeTransaction,
      releaseClient, setReleased, issueQuery]

/-- Witness for the amended C2: concrete run on the one-transaction state. -/
theorem rollback_success_sequence_witness :
    executeRollback sOne "t1" none =
      (removeTransaction (releaseClient (setReleased (issueQuery sOne 0 "ROLLBACK") "t1") 0) "t1",
        .ok ("Rolled back: " ++ "t1" ++ ". No changes applied.")) ∧
    (executeRollback sOne "t1" none).1.trace =
      sOne.trace ++ [Ev.q 0 "ROLLBACK", Ev.setRel "t1", Ev.rel 0, Ev.rm "t1"] :=
  rollback_success_sequence sOne "t1" ⟨"t1", 0, false, 0⟩ (by decide) rfl

/-- C4: rollback of a transaction that is present but already released fails
with the AlreadyReleased error, the entry is removed from the registry as
cleanup, and the trace gains only the removal event — no terminal statement
is issued and the client is not released again. -/
theorem rollback_already_released (s : SState) (id : String) (tx : Tx) (qerr : Option String)
    (h : getTransaction s id = some tx) (h2 : tx.released = true) :
    executeRollback s id qerr = (removeTransaction s id, .error ("Already released: " ++ id)) ∧
    (executeRollback s id qerr).1.registry = s.registry.filter (fun t => t.txId ≠ id) ∧
    (executeRollback s id qerr).1.trace = s.trace ++ [Ev.rm id] := by
  refine ⟨?_, ?_, ?_⟩ <;>
    simp [executeRollback, rollbackSeg1, h, h2, removeTransaction]

/-- Witness for C4: concrete run on the released-transaction state. -/
theorem rollback_already_released_witness :
    executeRollback sRel "t1" none = (removeTransaction sRel "t1", .error ("Already released: " ++ "t1")) ∧
    (executeRollback sRel "t1" none).1.registry = sRel.registry.filter (fun t => t.txId ≠ "t1") ∧
    (executeRollback sRel "t1" none).1.trace = sRel.trace ++ [Ev.rm "t1"] :=
  rollback_already_released sRel "t1" ⟨"t1", 0, true, 0⟩ none (by decide) rfl

/-- C10: when the awaited ROLLBACK statement rejects, the handler returns a
structured error carrying the message, the registry is unchanged (the
transaction is still present with released = false), and the trace gains only
the failed statement — in particular the client is not released. -/
theorem rollback_query_error (s : SState) (id : String) (tx : Tx) (m : String)
    (h : getTransaction s id = some tx) (h2 : tx.released = false) :
    executeRollback s id (some m) = (issueQuery s tx.client "ROLLBACK", .error m) ∧
    (executeRollback s id (some m)).1.registry = s.registry ∧
    (executeRollback s id (some m)).1.trace = s.trace ++ [Ev.q tx.client "ROLLBACK"] ∧
    getTransaction (executeRollback s id (some m)).1 id = some tx := by
  have hf : List.find? (fun t => decide (t.txId = id)) s.registry = some tx := h
  refine ⟨?_, ?_, ?_, ?_⟩ <;>
    simp [executeRollback, rollbackSeg1, h, h2, issueQuery, getTransaction, hf]

/-- Witness for C10: concrete failing ROLLBACK on the one-transaction state. -/
theorem rollback_query_error_witness :
    executeRollback sOne "t1" (some "boom") = (issueQuery sOne 0 "ROLLBACK", .error "boom") ∧
    (executeRollback sOne "t1" (some "boom")).1.registry = sOne.registry ∧
    (executeRollback sOne "t1" (some "boom")).1.trace = sOne.trace ++ [Ev.q 0 "ROLLBACK"] ∧
    getTransaction (executeRollback sOne "t1" (some "boom")).1 "t1" = some ⟨"t1", 0, false, 0⟩ :=
  rollback_query_error sOne "t1" ⟨"t1", 0, false, 0⟩ "boom" (by decide) rfl

/-- After any entry with this id is filtered out, a registry lookup for the id
finds nothing. -/
lemma find_txId_filter_ne (l : List Tx) (id : String) :
    (l.filter (fun t => t.txId ≠ id)).find? (fun t => t.txId = id) = none := by
  apply List.find?_eq_none.mpr
  intro t ht
  have hmem := (List.mem_filter.mp ht).2
  simp at hmem ⊢
  exact hmem

/-- C3: finalizing (commit or rollback) an id absent from the registry fails
with the NotFound error and leaves the state untouched; and a successful
finalize removes its entry, so any further commit or rollback on that id
finds nothing — it lands in exactly that NotFound case. -/
theorem finalize_not_found (s s2 : SState) (id id2 : String) (tx : Tx) (qerr : Option String)
    (h : hasTransaction s id = false)
    (h1 : getTransaction s2 id2 = some tx) (h2 : tx.released = false) :
    executeRollback s id qerr = (s, .error ("Transaction not found: " ++ id)) ∧
    executeCommit s id = (s, .error ("Transaction not found: " ++ id)) ∧
    hasTransaction (executeRollback s2 id2 none).1 id2 = false ∧
    hasTransaction (executeCommit s2 id2).1 id2 = false := by
  have hn : getTransaction s id = none := by
    cases ho : getTransaction s id with
    | none => rfl
    | some t => rw [hasTransaction, ho] at h; simp at h
  have hf1 : List.find? (fun t => decide (t.txId = id2)) s2.registry = some tx := h1
  refine ⟨?_, ?_, ?_, ?_⟩
  · simp [executeRollback, rollbackSeg1, hn]
  · simp [executeCommit, hn]
  · simp [executeRollback, rollbackSeg1, rollbackSeg2, getTransaction, hf1, h2,
      hasTransaction, removeTransaction, releaseClient, setReleased, issueQuery,
      find_txId_filter_ne]
  · simp [executeCommit, getTransaction, hf1, h2, hasTransaction, removeTransaction,
      releaseClient, setReleased, issueQuery, find_txId_filter_ne]

/-- Witness for C3: the empty registry rejects both finalizers with NotFound,
and finalizing the live transaction of `sOne` leaves its id untracked. -/
theorem finalize_not_found_witness :
    executeRollback ⟨[], []⟩ "t9" none = (⟨[], []⟩, .error ("Transaction not found: " ++ "t9")) ∧
    executeCommit ⟨[], []⟩ "t9" = (⟨[], []⟩, .error ("Transaction not found: " ++ "t9")) ∧
    hasTransaction (executeRollback sOne "t1" none).1 "t1" = false ∧
    hasTransaction (executeCommit sOne "t1").1 "t1" = false :=
  finalize_not_found ⟨[], []⟩ sOne "t9" "t1" ⟨"t1", 0, false, 0⟩ none (by decide) (by decide) rfl

/-! ## The finalization race (C5, C9)

The rollback handler of src/src/index.ts reads `tx.released` at line 105 and
sets it at line 110, with the awaited `tx.client.query("ROLLBACK")` of line
109 between the two.  While the handler is suspended at that await, the event
loop can run the sweep of the Transaction Monitor; the registry entry still
shows released = false, so the check-and-set of the monitor succeeds and it finalizes
the transaction.  When the request handler resumes it completes its own
finalization unconditionally.  The schedule below is that interleaving on the
one-transaction state. -/

/-- State after the rollback request ran to its await (segment 1) and the
monitor sweep then force-expired the same transaction. -/
def raceMid : SState := monitorExpire (rollbackSeg1 sOne "t1").1 "t1" 1000 100

/-- Final state and response after the suspended rollback request resumed
(segment 2). -/
def raceFinal : SState × ToolResult := rollbackSeg2 raceMid "t1" 0

/-- C9: in the interleaving above, the request path passes the released check
and suspends; the monitor then observes released = false, wins its
check-and-set and fully finalizes (entry gone, one release, a second
ROLLBACK); and the resumed request path nevertheless also completes,
reporting success — both finalizers succeed, the client is released twice,
contradicting the exactly-one-wins property. -/
theorem race_both_finalizers_succeed :
    (rollbackSeg1 sOne "t1").2 = RbPhase.awaiting "t1" 0 ∧
    hasTransaction raceMid "t1" = false ∧
    relCount raceMid.trace 0 = 1 ∧
    stmtCount raceMid.trace 0 "ROLLBACK" = 2 ∧
    raceFinal.2 = .ok ("Rolled back: " ++ "t1" ++ ". No changes applied.") ∧
    relCount raceFinal.1.trace 0 = 2 := by
  decide

/-- C5: in the same interleaving, the connection bound to the transaction
starts with zero pool releases and ends with two — the exactly-once release
guarantee fails on this control path. -/
theorem race_connection_released_twice :
    relCount sOne.trace 0 = 0 ∧ relCount raceFinal.1.trace 0 = 2 := by
  decide

/-! ## Session multiplexer lemmas and theorems (C6, C7, C8) -/

/-- Appending a binding for a key not yet in the map makes lookups of that
key find it. -/
lemma lookupSession_append_of_none (l : List (String × Nat)) (k : String) (v : Nat)
    (h : lookupSession l k = none) : lookupSession (l ++ [(k, v)]) k = some v := by
  induction l with
  | nil => simp [lookupSession]
  | cons p rest ih =>
      obtain ⟨a, b⟩ := p
      by_cases hk : a = k
      · simp [lookupSession, hk] at h
      · simp [lookupSession, hk] at h ⊢
        exact ih h

/-- Filtering a key out of the map makes lookups of that key find nothing. -/
lemma lookupSession_filter_self (l : List (String × Nat)) (sid : String) :
    lookupSession (l.filter (fun p => p.1 ≠ sid)) sid = none := by
  induction l with
  | nil => simp [lookupSession]
  | cons p rest ih =>
      obtain ⟨a, b⟩ := p
      by_cases hk : a = sid
      · simpa [List.filter_cons, hk] using ih
      · simpa [List.filter_cons, hk, lookupSession] using ih

/-- Filtering a key out of the map twice is the same as doing it once. -/
lemma filter_ne_idem (l : List (String × Nat)) (sid : String) :
    (l.filter (fun p => p.1 ≠ sid)).filter (fun p => p.1 ≠ sid) =
      l.filter (fun p => p.1 ≠ sid) := by
  induction l with
  | nil => simp
  | cons q rest ih =>
      by_cases hk : q.1 = sid
      · simp [List.filter_cons, hk, ih]
      · simp [List.filter_cons, hk, ih]

/-- A key whose lookup fails heads no binding of the map. -/
lemma lookupSession_none_keys (l : List (String × Nat)) (k : String)
    (h : lookupSession l k = none) : ∀ p ∈ l, p.1 ≠ k := by
  induction l with
  | nil => intro p hp; simp at hp
  | cons q rest ih =>
      obtain ⟨a, b⟩ := q
      by_cases hk : a = k
      · simp [lookupSession, hk] at h
      · simp [lookupSession, hk] at h
        intro p hp
        rcases List.mem_cons.mp hp with h1 | h1
        · subst h1; exact hk
        · exact ih h p h1

/-- C6: an inbound request with no session id that is a recognized
initialization request gets a fresh session id generated, a new
transport/handler pairing constructed and registered under that id, and the
response carries the new session id in the mcp-session-id header. -/
theorem session_init_registers (st : MuxState) (freshId : String) (fp : Nat)
    (hfresh : lookupSession st.sessions freshId = none) :
    postMcp st none true freshId fp =
      ({ sessions := st.sessions ++ [(freshId, fp)] }, .handled fp (some freshId)) ∧
    lookupSession (postMcp st none true freshId fp).1.sessions freshId = some fp := by
  refine ⟨by simp [postMcp], ?_⟩
  simpa [postMcp] using lookupSession_append_of_none st.sessions freshId fp hfresh

/-- Witness for C6: initializing against the empty session map registers the
fresh id. -/
theorem session_init_registers_witness :
    postMcp ⟨[]⟩ none true "s1" 7 =
      ({ sessions := [] ++ [("s1", 7)] }, .handled 7 (some "s1")) ∧
    lookupSession (postMcp ⟨[]⟩ none true "s1" 7).1.sessions "s1" = some 7 :=
  session_init_registers ⟨[]⟩ "s1" 7 rfl

/-- C7: a non-initialization request with no session id, and any request
carrying a session id that is not in the session map, are rejected with the
structured 400 error; the session map is returned unchanged, so no mapping is
created and no existing pairing is touched.  The same holds for the GET and
DELETE handler. -/
theorem reject_unknown_session (st : MuxState) (sid : String) (isInit : Bool)
    (fid : String) (fp : Nat)
    (hunknown : lookupSession st.sessions sid = none) :
    postMcp st none false fid fp = (st, .badRequest) ∧
    postMcp st (some sid) isInit fid fp = (st, .badRequest) ∧
    handleSessionRequest st none = (st, .badRequest) ∧
    handleSessionRequest st (some sid) = (st, .badRequest) := by
  refine ⟨by simp [postMcp], ?_, by simp [handleSessionRequest], ?_⟩ <;>
    simp [postMcp, handleSessionRequest, hunknown]

/-- Witness for C7: a bogus id against a one-session map is rejected on every
route and the map is unchanged. -/
theorem reject_unknown_session_witness :
    postMcp ⟨[("a", 1)]⟩ none false "f" 2 = (⟨[("a", 1)]⟩, .badRequest) ∧
    postMcp ⟨[("a", 1)]⟩ (some "b") true "f" 2 = (⟨[("a", 1)]⟩, .badRequest) ∧
    handleSessionRequest ⟨[("a", 1)]⟩ none = (⟨[("a", 1)]⟩, .badRequest) ∧
    handleSessionRequest ⟨[("a", 1)]⟩ (some "b") = (⟨[("a", 1)]⟩, .badRequest) :=
  reject_unknown_session ⟨[("a", 1)]⟩ "b" true "f" 2 (by decide)

/-- C8: transport closure removes the mapping for the session id of the transport
(the id then resolves to nothing); the removal is idempotent; and the
at-most-one-live-pairing-per-id invariant is preserved both by closure and by
registration of a fresh id. -/
theorem session_close_removes (st : MuxState) (sid fid : String) (fp : Nat)
    (hinv : MuxInv st) (hf : lookupSession st.sessions fid = none) :
    lookupSession (oncloseTransport st (some sid)).sessions sid = none ∧
    oncloseTransport (oncloseTransport st (some sid)) (some sid) = oncloseTransport st (some sid) ∧
    MuxInv (oncloseTransport st (some sid)) ∧
    MuxInv (postMcp st none true fid fp).1 := by
  refine ⟨?_, ?_, ?_, ?_⟩
  · simpa [oncloseTransport] using lookupSession_filter_self st.sessions sid
  · simp [oncloseTransport, filter_ne_idem]
  · intro sid2
    have hsub : ((st.sessions.filter (fun p => p.1 ≠ sid)).filter (fun p => p.1 = sid2)).Sublist
        (st.sessions.filter (fun p => p.1 = sid2)) :=
      List.Sublist.filter _ (List.filter_sublist st.sessions)
    calc livePairings (oncloseTransport st (some sid)) sid2
        = ((st.sessions.filter (fun p => p.1 ≠ sid)).filter (fun p => p.1 = sid2)).length := rfl
      _ ≤ (st.sessions.filter (fun p => p.1 = sid2)).length := hsub.length_le
      _ ≤ 1 := hinv sid2
  · intro sid2
    have hkeys := lookupSession_none_keys st.sessions fid hf
    by_cases hk : fid = sid2
    · have hnil : st.sessions.filter (fun p => p.1 = sid2) = [] := by
        apply List.filter_eq_nil_iff.mpr
        intro p hp
        simp
        rw [← hk]
        exact fun hcontra => hkeys p hp hcontra
      simp [postMcp, livePairings, List.filter_append, List.filter_cons, hnil, hk]
    · have hstep : livePairings (postMcp st none true fid fp).1 sid2 = livePairings st sid2 := by
        simp [postMcp, livePairings, List.filter_append, List.filter_cons, hk]
      rw [hstep]
      exact hinv sid2

/-- Witness for C8: closing session a on a one-session map empties it,
idempotently, keeping the invariant; registering fresh id b also keeps it. -/
theorem session_close_removes_witness :
    lookupSession (oncloseTransport ⟨[("a", 1)]⟩ (some "a")).sessions "a" = none ∧
    oncloseTransport (oncloseTransport ⟨[("a", 1)]⟩ (some "a")) (some "a") =
      oncloseTransport ⟨[("a", 1)]⟩ (some "a") ∧
    MuxInv (oncloseTransport ⟨[("a", 1)]⟩ (some "a")) ∧
    MuxInv (postMcp ⟨[("a", 1)]⟩ none true "b" 2).1 :=
  session_close_removes ⟨[("a", 1)]⟩ "a" "b" 2
    (by
      intro sid
      by_cases h : "a" = sid <;>
        simp [livePairings, List.filter_cons, h])
    (by decide)

end McpPg
